import Mathlib

/-!
Verification of the LLM bridge of `src/app.py`.

The development shallowly embeds the two bridge functions `call_llm`
(lines 23-104) and `call_openai` (lines 164-216).  Python values that the
code can receive as `messages`, and parsed JSON bodies, are modelled by
inductive types; the outcome of the single `requests.post` call is passed
in as an explicit parameter, so "for every outcome of the HTTP call"
becomes a universal quantification.  A function returns an `Outcome`
(normal string return, non-string return, or an uncaught exception) paired
with the request it dispatched, if any, so "performs no HTTP call" is the
second component being `none`.  Line 183 of `call_openai` reads a module
global that no statement of the module ever binds; the embedding records
that read as a raised `NameError`.
-/

namespace Bridge

/-- Model of a Python element of the `messages` list/tuple as seen by
`m.strip() for m in messages if m is not None` (app.py line 52):
`none` is Python `None` and is skipped; `str` carries a Python string;
`nonStr` is any other value, whose missing `.strip()` attribute makes the
generator raise `AttributeError`. -/
inductive Elem where
  | none
  | str (s : String)
  | nonStr
deriving DecidableEq, Repr

/-- Model of the Python value passed as `messages`: a string, a list, a
tuple, or a value of any other type (rejected by the `isinstance` check on
app.py line 44). -/
inductive Messages where
  | str (s : String)
  | list (xs : List Elem)
  | tuple (xs : List Elem)
  | other
deriving DecidableEq, Repr

/-- Model of a parsed JSON body as returned by `resp.json()`: Python
`str`, `int`, `bool`, `None`, `list` and `dict` values. -/
inductive Json where
  | str (s : String)
  | int (n : Int)
  | bool (b : Bool)
  | null
  | arr (xs : List Json)
  | obj (fs : List (String × Json))

/-- The apostrophe character, written by code so that quoting rules of
CPython `repr` can be stated. -/
def squote : Char := Char.ofNat 39

/-- The double-quote character. -/
def dquote : Char := Char.ofNat 34

/-- Python whitespace, the characters `str.strip` removes: the Latin-1
part of the Unicode whitespace class (tab through carriage return, the
file/group/record/unit separators, space, next line, no-break space).
The higher Unicode space code points are left out of the model. -/
def pyIsSpace (c : Char) : Bool :=
  (9 ≤ c.toNat && c.toNat ≤ 13) || (28 ≤ c.toNat && c.toNat ≤ 31)
    || c.toNat = 32 || c.toNat = 133 || c.toNat = 160

/-- Python `str.strip()`: remove leading and trailing whitespace. -/
def pyStrip (s : String) : String :=
  String.mk (((s.data.dropWhile pyIsSpace).reverse.dropWhile pyIsSpace).reverse)

/-- Python `str.lower()` on the ASCII letters; other characters are kept
(the non-ASCII case mappings are left out of the model). -/
def pyLowerChar (c : Char) : Char :=
  if 65 ≤ c.toNat && c.toNat ≤ 90 then Char.ofNat (c.toNat + 32) else c

/-- Python `str.lower()`. -/
def pyLower (s : String) : String := String.mk (s.data.map pyLowerChar)

/-- Python `str.startswith(pre)`. -/
def pyStartsWith (s pre : String) : Bool := pre.data.isPrefixOf s.data

/-- Python `s[n:]` on strings, dropping the first `n` characters. -/
def pyDrop (s : String) (n : Nat) : String := String.mk (s.data.drop n)

/-- Python `c in s` for a single character. -/
def pyContains (s : String) (c : Char) : Bool := s.data.contains c

/-- Quote character CPython `repr` chooses for a string: a double quote
when the string holds an apostrophe but no double quote, else an
apostrophe. -/
def pyQuote (s : String) : Char :=
  if pyContains s squote && !(pyContains s dquote) then dquote else squote

/-- One character of CPython `repr` of a string, for printable characters:
the backslash and the chosen quote are escaped, as are newline, carriage
return and tab; every other (printable) character stands for itself. -/
def pyEscChar (q c : Char) : String :=
  if c = '\\' then "\\\\"
  else if c = q then "\\" ++ String.singleton q
  else if c = '\n' then "\\n"
  else if c = '\r' then "\\r"
  else if c = '\t' then "\\t"
  else String.singleton c

/-- CPython `repr` of a string of printable characters. -/
def strRepr (s : String) : String :=
  let q := pyQuote s
  String.singleton q ++ String.join (s.data.map (pyEscChar q)) ++ String.singleton q

mutual
/-- CPython `repr` of a parsed JSON value (the rendering `str` applies to
every element below the top level). -/
def pyRepr : Json → String
  | Json.str s => strRepr s
  | Json.int n => toString n
  | Json.bool b => if b then "True" else "False"
  | Json.null => "None"
  | Json.arr xs => "[" ++ pyReprList xs ++ "]"
  | Json.obj fs => "\x7b" ++ pyReprFields fs ++ "\x7d"
termination_by structural j => j

/-- Comma-separated `repr` of the elements of a Python list. -/
def pyReprList : List Json → String
  | [] => ""
  | [x] => pyRepr x
  | x :: y :: rest => pyRepr x ++ ", " ++ pyReprList (y :: rest)
termination_by structural l => l

/-- Comma-separated `repr` of the items of a Python dict. -/
def pyReprFields : List (String × Json) → String
  | [] => ""
  | [(k, v)] => strRepr k ++ ": " ++ pyRepr v
  | (k, v) :: f :: rest => strRepr k ++ ": " ++ pyRepr v ++ ", " ++ pyReprFields (f :: rest)
termination_by structural l => l
end

/-- CPython `str` of a parsed JSON value: a top-level string renders as
itself, every other value as its `repr`.  This is the coercion
`val if isinstance(val, str) else str(val)` (app.py line 93) and the
interpolation `f"... \x7bdata\x7d"` (line 96) both use. -/
def pyStr : Json → String
  | Json.str s => s
  | v => pyRepr v

/-- Result of running one of the bridge functions: `ret` is a normal
return of a Python string, `retVal` a normal return of a non-string value
(reachable only in `call_openai`), `raise` an exception that escapes the
function, carrying the exception class name. -/
inductive Outcome where
  | ret (s : String)
  | retVal (v : Json)
  | raise (e : String)

/-- Is the outcome a normal return of a string? -/
def Outcome.isRet : Outcome → Bool
  | .ret _ => true
  | _ => false

/-- The JSON payload `call_llm` posts (app.py line 62). -/
structure Payload where
  model_name : String
  prompt : String
deriving DecidableEq, Repr

/-- Model of a `requests.Response`: the status code, the body text
(`none` when reading `resp.text` raises, app.py lines 77-80), the parsed
JSON (`none` when `resp.json()` raises `ValueError`), and the text of the
`HTTPError` that `raise_for_status()` would raise for this response (that
text is produced inside the requests library, so it is kept abstract). -/
structure Response where
  status : Nat
  text : Option String
  json : Option Json
  httpErrorText : String

/-- Outcome of the single `requests.post` call: a response, or one of the
transport-level exceptions, grouped exactly as the `except` clauses of
app.py lines 98-104 catch them — `timeout` is anything caught by
`requests.exceptions.Timeout` (which Python tries first, so it also
covers `ConnectTimeout`), `connError` anything else caught by
`ConnectionError`, `reqError` any remaining `RequestException`.  Each
exception carries its `str()`. -/
inductive HttpOutcome where
  | ok (resp : Response)
  | timeout (e : String)
  | connError (e : String)
  | reqError (e : String)

/-- Error string of app.py line 45. -/
def errType : String := "Ошибка: некорректный тип параметра messages"

/-- Error string of app.py line 56. -/
def errEmpty : String := "Ошибка: пустой prompt"

/-- Error string of app.py line 60. -/
def errTooLong : String := "Ошибка: слишком длинный текст"

/-- Error string of app.py line 99. -/
def errTimeout : String := "Ошибка: таймаут при обращении к LLM (timeout=15s)"

/-- Error string of app.py line 101, around the `str()` of the exception. -/
def errConn (e : String) : String := "Ошибка соединения с LLM: " ++ e

/-- Error string of app.py line 104, around the `str()` of the exception. -/
def errReq (e : String) : String := "Ошибка запроса к LLM: " ++ e

/-- Error string of app.py line 75. -/
def err401 : String :=
  "Ошибка: Unauthorized (401) от Mentorpiece. Проверьте значение MENTORPIECE_API_KEY."

/-- Fallback body of app.py line 80, used when reading `resp.text` raises. -/
def noBodyText : String := "<не удалось прочитать тело ответа>"

/-- Error string of app.py line 81, embedding status code and body. -/
def errHTTP (code : Nat) (body : String) : String :=
  "Ошибка HTTP " ++ toString code ++ " от LLM: " ++ body

/-- Error string of app.py line 87. -/
def errBadJson : String := "Ошибка: получен некорректный JSON от LLM"

/-- Error string of app.py line 96, embedding the `str()` of the parsed
body (the apostrophes around the field name are built by code). -/
def errNoField (data : Json) : String :=
  "Ошибка: в ответе отсутствует поле " ++ String.singleton squote ++ "response"
    ++ String.singleton squote ++ " — получено: " ++ pyStr data

/-- The raised exception class when `.strip()` is called on a non-string
element (app.py line 52). -/
def attrError : String := "AttributeError"

/-- The raised exception class when a never-bound global name is read
(app.py line 183). -/
def nameError : String := "NameError"

/-- The generator `m.strip() for m in messages if m is not None` of
app.py line 52, as `"\n".join` consumes it: `None` elements are skipped,
string elements are trimmed, and a non-string element makes the whole
expression raise `AttributeError`. -/
def stripElems : List Elem → Except String (List String)
  | [] => .ok []
  | Elem.none :: rest => stripElems rest
  | Elem.str s :: rest =>
    match stripElems rest with
    | .ok ps => .ok (pyStrip s :: ps)
    | .error e => .error e
  | Elem.nonStr :: _ => .error attrError

/-- The elements `call_llm` iterates over after the `isinstance`
validation and the string-to-singleton-list normalization of app.py
lines 44-49; `none` means the validation on line 44 rejects the value. -/
def Messages.elems : Messages → Option (List Elem)
  | .str s => some [Elem.str s]
  | .list xs => some xs
  | .tuple xs => some xs
  | .other => none

/-- A `messages` value on which the element generator cannot raise: a
string, a rejected non-sequence, or a sequence whose elements are all
strings or `None`. -/
def Messages.wellTyped : Messages → Bool
  | .list xs => !xs.contains Elem.nonStr
  | .tuple xs => !xs.contains Elem.nonStr
  | _ => true

/-- The success-shape test of app.py line 90: the parsed body is a dict
holding the key `"response"`. -/
def hasResponseField : Json → Bool
  | Json.obj fs => (fs.lookup "response").isSome
  | _ => false

/-- Modelled from the spec: the normalization step as section 4.1 words
it — "Each element is trimmed; null/absent elements are skipped" — to be
compared with `stripElems`, the embedding of the source's generator. -/
def specNormalize (xs : List Elem) : List String :=
  xs.filterMap fun e =>
    match e with
    | Elem.str s => some (pyStrip s)
    | _ => Option.none

/-- Lines 44-60 of app.py: everything `call_llm` does before the HTTP
call.  `error` is an early exit (a returned error string or an uncaught
exception); `ok` carries the joined prompt that will be dispatched.  The
model name plays no part here, exactly as in the source. -/
def buildPrompt (messages : Messages) : Except Outcome String :=
  match messages.elems with
  | Option.none => .error (.ret errType)
  | some xs =>
    match stripElems xs with
    | .error e => .error (.raise e)
    | .ok parts =>
      let prompt := String.intercalate "\n" parts
      if prompt = "" ∨ pyStrip prompt = "" then .error (.ret errEmpty)
      else if prompt.length > 10000 then .error (.ret errTooLong)
      else .ok prompt

/-- Lines 83-96 of app.py: parse the body of a `< 400` response.
`resp.json()` raising `ValueError` is the `none` case; then the expected
shape is a dict with a `"response"` key, whose value is coerced to a
string; otherwise the diagnostic embeds the `str()` of the parsed body. -/
def parseBody : Option Json → Outcome
  | Option.none => .ret errBadJson
  | some data =>
    match data with
    | Json.obj fs =>
      match fs.lookup "response" with
      | some val => .ret (pyStr val)
      | Option.none => .ret (errNoField data)
    | _ => .ret (errNoField data)

/-- Lines 67-104 of app.py: handle the outcome of `requests.post`.
Status 401 gets the fixed credential hint; any other status `≥ 400` gets
the status code and the body (with the fallback when reading the body
raises); a status `< 400` proceeds to body parsing; the three `except`
clauses each produce their own string. -/
def dispatch : HttpOutcome → Outcome
  | .timeout _ => .ret errTimeout
  | .connError e => .ret (errConn e)
  | .reqError e => .ret (errReq e)
  | .ok resp =>
    if resp.status ≥ 400 then
      if resp.status = 401 then .ret err401
      else .ret (errHTTP resp.status (resp.text.getD noBodyText))
    else parseBody resp.json

/-- The bridge function `call_llm` of app.py lines 23-104.  `http` gives
the outcome of the single `requests.post` for the payload it is handed;
the second component of the result is the payload that was posted, or
`none` when the function exited before any HTTP call. -/
def call_llm (model_name : String) (messages : Messages)
    (http : Payload → HttpOutcome) : Outcome × Option Payload :=
  match buildPrompt messages with
  | .error o => (o, Option.none)
  | .ok prompt =>
    (dispatch (http ⟨model_name, prompt⟩), some ⟨model_name, prompt⟩)

/-- Truthiness of a parsed JSON value under Python `bool()`. -/
def pyTruthy : Json → Bool
  | Json.null => false
  | Json.bool b => b
  | Json.int n => n ≠ 0
  | Json.str s => s ≠ ""
  | Json.arr xs => !xs.isEmpty
  | Json.obj fs => !fs.isEmpty

/-- The request `call_openai` posts (app.py lines 173-181 and 190-193):
the fixed URL, the payload fields (the single message has role `user` and
content `prompt`), and the `Authorization` header value. -/
structure OpenAIRequest where
  url : String
  model : String
  content : String
  max_tokens : Nat
  authorization : String
deriving DecidableEq, Repr

/-- Error string of app.py line 188. -/
def errNoKey : String :=
  "Ошибка: OPENAI_API_KEY не задан. Установите переменную окружения OPENAI_API_KEY."

/-- Error string of app.py lines 200-201 (two adjacent literals). -/
def errOpenAI401 : String :=
  "Ошибка: Unauthorized (401) от OpenAI. Проверьте значение OPENAI_API_KEY; ключ отсутствует или недействителен."

/-- Error string of app.py line 214, around the `str()` of the exception. -/
def errOpenAIReq (e : String) : String := "Ошибка запроса к OpenAI: " ++ e

/-- Error string of app.py line 216. -/
def errOpenAIBadJson : String :=
  "Ошибка: получен неверный формат ответа от OpenAI (не JSON)"

/-- App.py lines 182-185: strip the credential of an accidental
`Bearer ` prefix.  The source writes `api_key.split(" ", 1)[1]`; under
the guard `api_key.lower().startswith("bearer ")` the first space sits at
index 6, so that split is exactly dropping the first 7 characters. -/
def stripBearer (k : String) : String :=
  if pyStartsWith (pyLower k) "bearer " then pyDrop k 7 else k

/-- App.py lines 205-212: extract the answer from the parsed body.
`data.get(...)` on a non-dict raises `AttributeError` (no `except` clause
catches it); `data.get("choices") or []` replaces a falsy value by the
empty list; a truthy list takes `choices[0].get("message", {})` (again
raising on non-dicts) and returns `msg.get("content", "")`, otherwise the
fallback returns `data.get("text", "")`.  The defaulted `get` results are
returned as they are, string or not. -/
def openaiExtract : Json → Outcome
  | Json.obj fs =>
    let g := (fs.lookup "choices").getD Json.null
    let choices := if pyTruthy g then g else Json.arr []
    match choices with
    | Json.arr (c0 :: _) =>
      match c0 with
      | Json.obj cfs =>
        match (cfs.lookup "message").getD (Json.obj []) with
        | Json.obj mfs =>
          match mfs.lookup "content" with
          | some (Json.str s) => .ret s
          | some v => .retVal v
          | Option.none => .ret ""
        | _ => .raise attrError
      | _ => .raise attrError
    | _ =>
      match fs.lookup "text" with
      | some (Json.str s) => .ret s
      | some v => .retVal v
      | Option.none => .ret ""
  | _ => .raise attrError

/-- App.py lines 195-216: handle the outcome of the OpenAI post.  Every
transport exception is a `RequestException` and lands in the single
handler of line 213; a 401 gets the fixed hint before `raise_for_status`;
`raise_for_status` raises `HTTPError` for statuses 400-599, which the
same `RequestException` handler converts around the abstract exception
text; otherwise the body is parsed (a `ValueError` from `resp.json()`
is the `none` case, handled on line 216). -/
def openaiHandle : HttpOutcome → Outcome
  | .timeout e => .ret (errOpenAIReq e)
  | .connError e => .ret (errOpenAIReq e)
  | .reqError e => .ret (errOpenAIReq e)
  | .ok resp =>
    if resp.status = 401 then .ret errOpenAI401
    else if 400 ≤ resp.status ∧ resp.status < 600 then
      .ret (errOpenAIReq resp.httpErrorText)
    else
      match resp.json with
      | Option.none => .ret errOpenAIBadJson
      | some data => openaiExtract data

/-- Modelled from the spec: app.py lines 164-216 under the module
binding the spec's section 6 and the function body assume —
`OPENAI_API_KEY = os.getenv("OPENAI_API_KEY")`, parallel to line 20 for
the other credential, here the `OPENAI_API_KEY` parameter (`none` models
an absent environment variable).  That binding appears nowhere in the
source, so this definition is the intended function against which the
bug is judged; everything from line 173 on is the source text.
`messages` is the documented list of strings that line 174 joins with
newlines; the second component is the dispatched request, or `none` when
the function returned before any HTTP call. -/
def call_openai_documented (model_name : String) (messages : List String)
    (OPENAI_API_KEY : Option String) (http : OpenAIRequest → HttpOutcome) :
    Outcome × Option OpenAIRequest :=
  let prompt := String.intercalate "\n" messages
  let api_key := stripBearer (pyStrip (OPENAI_API_KEY.getD ""))
  if api_key = "" then (.ret errNoKey, Option.none)
  else
    let req : OpenAIRequest :=
      ⟨"https://api.openai.com/v1/chat/completions", model_name, prompt, 1024,
        "Bearer " ++ api_key⟩
    (openaiHandle (http req), some req)

/-- The alternate bridge `call_openai` of app.py lines 164-216 as the
module actually stands: line 183 reads the global `OPENAI_API_KEY`, but
no statement of the module ever binds that name (only
`MENTORPIECE_API_KEY` is bound, on line 20, and `load_dotenv` sets
environment variables, not Python names), so the read raises `NameError`
on every call — before the credential check and before any HTTP call.
The value the environment variable would hold is still a parameter, to
state that it makes no difference. -/
def call_openai (model_name : String) (messages : List String)
    (env_OPENAI_API_KEY : Option String) (http : OpenAIRequest → HttpOutcome) :
    Outcome × Option OpenAIRequest :=
  (.raise nameError, Option.none)

/-! Helper lemmas. -/

/-- On a sequence free of non-string elements the generator raises
nothing and produces exactly the spec's normalization. -/
theorem stripElems_wellTyped (xs : List Elem) (h : xs.contains Elem.nonStr = false) :
    stripElems xs = Except.ok (specNormalize xs) := by
  induction xs with
  | nil => rfl
  | cons e rest ih =>
    have hrest : rest.contains Elem.nonStr = false := by
      simp only [List.contains_cons, Bool.or_eq_false_iff] at h
      exact h.2
    cases e with
    | none => simpa [stripElems, specNormalize, List.filterMap_cons] using ih hrest
    | str s => simp [stripElems, specNormalize, List.filterMap_cons, ih hrest]
    | nonStr => simp [List.contains_cons] at h

/-- `dispatch` returns a string whatever the HTTP outcome was. -/
theorem dispatch_isRet (o : HttpOutcome) : (dispatch o).isRet = true := by
  cases o with
  | ok resp =>
    simp only [dispatch]
    split
    · split
      · rfl
      · rfl
    · cases hj : resp.json with
      | none => rfl
      | some data =>
        cases data <;> simp only [parseBody] <;> first
          | rfl
          | (rename_i fs; cases hf : fs.lookup "response" <;> rfl)
  | timeout e => rfl
  | connError e => rfl
  | reqError e => rfl

/-- When the prompt passes the emptiness and length checks, `buildPrompt`
succeeds with the joined prompt. -/
theorem buildPrompt_ok (msgs : Messages) (xs : List Elem) (parts : List String)
    (h1 : msgs.elems = some xs) (h2 : stripElems xs = Except.ok parts)
    (h3 : pyStrip (String.intercalate "\n" parts) ≠ "")
    (h4 : (String.intercalate "\n" parts).length ≤ 10000) :
    buildPrompt msgs = Except.ok (String.intercalate "\n" parts) := by
  have hne : ¬(String.intercalate "\n" parts = ""
      ∨ pyStrip (String.intercalate "\n" parts) = "") := by
    rintro (h | h)
    · exact h3 (by rw [h]; rfl)
    · exact h3 h
  have hlen : ¬((String.intercalate "\n" parts).length > 10000) := by omega
  simp only [buildPrompt, h1, h2]
  rw [if_neg hne, if_neg hlen]

/-- An early exit of `buildPrompt` on a well-typed input is a returned
error string, never an exception. -/
theorem buildPrompt_error_isRet (msgs : Messages) (h : msgs.wellTyped = true)
    (o : Outcome) (ho : buildPrompt msgs = Except.error o) : o.isRet = true := by
  cases msgs with
  | other => simp only [buildPrompt, Messages.elems] at ho; cases ho; rfl
  | str s =>
    simp only [buildPrompt, Messages.elems,
      stripElems_wellTyped [Elem.str s] (by simp)] at ho
    split at ho
    · cases ho; rfl
    · split at ho
      · cases ho; rfl
      · cases ho
  | list xs =>
    have hxs : xs.contains Elem.nonStr = false := by
      simpa [Messages.wellTyped] using h
    simp only [buildPrompt, Messages.elems, stripElems_wellTyped xs hxs] at ho
    split at ho
    · cases ho; rfl
    · split at ho
      · cases ho; rfl
      · cases ho
  | tuple xs =>
    have hxs : xs.contains Elem.nonStr = false := by
      simpa [Messages.wellTyped] using h
    simp only [buildPrompt, Messages.elems, stripElems_wellTyped xs hxs] at ho
    split at ho
    · cases ho; rfl
    · split at ho
      · cases ho; rfl
      · cases ho

/-- A string differs from everything extending a string whose first `n`
characters already disagree. -/
theorem ne_append_of_take_ne (a p : String) (n : Nat) (hn : n ≤ p.data.length)
    (hne : a.data.take n ≠ p.data.take n) (e : String) : a ≠ p ++ e := by
  intro he
  apply hne
  rw [he, String.data_append, List.take_append_eq_append_take,
    Nat.sub_eq_zero_of_le hn, List.take_zero, List.append_nil]

/-- Two appends differ when the base strings disagree within the first
`n` characters of both. -/
theorem append_ne_append_of_take_ne (p q : String) (n : Nat)
    (hp : n ≤ p.length) (hq : n ≤ q.length)
    (hne : p.data.take n ≠ q.data.take n) (e f : String) : p ++ e ≠ q ++ f := by
  intro he
  apply hne
  have hd : p.data ++ e.data = q.data ++ f.data := by
    rw [← String.data_append, he, String.data_append]
  have := congrArg (List.take n) hd
  simpa [List.take_append_eq_append_take, Nat.sub_eq_zero_of_le hp,
    Nat.sub_eq_zero_of_le hq] using this

/-! Claims. -/

/-- C1, counterexample: `call_llm` applied to a list holding a non-string,
non-None element (the model of Python `["hello", 42]`) raises
`AttributeError` instead of returning a string, whatever the HTTP layer
would have answered. -/
theorem C1_counterexample :
    (call_llm "m" (Messages.list [Elem.str "hello", Elem.nonStr])
        (fun _ => HttpOutcome.timeout "")).1 = Outcome.raise attrError ∧
    ((call_llm "m" (Messages.list [Elem.str "hello", Elem.nonStr])
        (fun _ => HttpOutcome.timeout "")).1).isRet = false :=
  ⟨rfl, rfl⟩

/-- C1, amended: for every model name, every `messages` value that is a
string, a non-sequence, or a list/tuple whose elements are all strings or
None, and every outcome of the HTTP call, `call_llm` returns a string and
never raises. -/
theorem C1_returns_string (model : String) (msgs : Messages)
    (h : msgs.wellTyped = true) (http : Payload → HttpOutcome) :
    ((call_llm model msgs http).1).isRet = true := by
  rw [call_llm]
  cases hbp : buildPrompt msgs with
  | error o => exact buildPrompt_error_isRet msgs h o hbp
  | ok prompt => exact dispatch_isRet _

/-- C1, witness: a concrete well-typed input on which the amended claim
evaluates. -/
theorem C1_witness :
    (Messages.list [Elem.str "hi", Elem.none]).wellTyped = true ∧
    ((call_llm "m" (Messages.list [Elem.str "hi", Elem.none])
        (fun _ => HttpOutcome.connError "boom")).1).isRet = true :=
  ⟨rfl, C1_returns_string "m" (Messages.list [Elem.str "hi", Elem.none]) rfl
    (fun _ => HttpOutcome.connError "boom")⟩

/-- C3: each of the three input errors — a non-string/non-list/non-tuple
`messages`, a prompt that is empty after trimming, a joined prompt longer
than 10000 characters — returns its own distinct error string with no
HTTP call (the dispatched-request component is `none` for every `http`),
and the three strings are pairwise distinct. -/
theorem C3_input_errors (model : String) (msgs : Messages) (xs : List Elem)
    (parts : List String) (http : Payload → HttpOutcome) :
    (call_llm model Messages.other http = (Outcome.ret errType, Option.none)) ∧
    (msgs.elems = some xs → stripElems xs = Except.ok parts →
      pyStrip (String.intercalate "\n" parts) = "" →
      call_llm model msgs http = (Outcome.ret errEmpty, Option.none)) ∧
    (msgs.elems = some xs → stripElems xs = Except.ok parts →
      pyStrip (String.intercalate "\n" parts) ≠ "" →
      (String.intercalate "\n" parts).length > 10000 →
      call_llm model msgs http = (Outcome.ret errTooLong, Option.none)) ∧
    errType ≠ errEmpty ∧ errType ≠ errTooLong ∧ errEmpty ≠ errTooLong := by
  refine ⟨rfl, ?_, ?_, by decide, by decide, by decide⟩
  · intro h1 h2 h3
    simp only [call_llm, buildPrompt, h1, h2]
    rw [if_pos (Or.inr h3)]
  · intro h1 h2 h3 h4
    have hne : ¬(String.intercalate "\n" parts = ""
        ∨ pyStrip (String.intercalate "\n" parts) = "") := by
      rintro (h | h)
      · exact h3 (by rw [h]; rfl)
      · exact h3 h
    simp only [call_llm, buildPrompt, h1, h2]
    rw [if_neg hne, if_pos h4]

/-- A string of copies of a non-whitespace character is already
stripped. -/
theorem pyStrip_replicate (n : Nat) (c : Char) (hc : pyIsSpace c = false) :
    pyStrip (String.mk (List.replicate n c)) = String.mk (List.replicate n c) := by
  have hdw : ∀ m, List.dropWhile pyIsSpace (List.replicate m c) = List.replicate m c := by
    intro m
    cases m with
    | zero => rfl
    | succ k => simp [List.replicate_succ, List.dropWhile_cons, hc]
  simp only [pyStrip, hdw, List.reverse_replicate]

/-- The generator applied to one string element strips just it. -/
theorem stripElems_singleton (s : String) :
    stripElems [Elem.str s] = Except.ok [pyStrip s] := rfl

/-- Joining a one-element list is that element. -/
theorem intercalate_singleton (s : String) : String.intercalate "\n" [s] = s := rfl

/-- Length of a string of `n` copies of one character. -/
theorem mk_replicate_length (n : Nat) (c : Char) :
    (String.mk (List.replicate n c)).length = n := by
  show (List.replicate n c).length = n
  exact List.length_replicate n c

/-- A string of `n > 0` copies of one character is not empty. -/
theorem mk_replicate_ne_empty (n : Nat) (c : Char) (hn : 0 < n) :
    String.mk (List.replicate n c) ≠ "" := by
  intro h
  have hd : List.replicate n c = [] := congrArg String.data h
  have := congrArg List.length hd
  simp only [List.length_replicate, List.length_nil] at this
  omega

/-- C3, witness: the three error cases evaluated on the concrete inputs
the tests use — a non-sequence, a whitespace-only string, and a
10001-character string. -/
theorem C3_witness :
    call_llm "m" Messages.other (fun _ => HttpOutcome.timeout "") =
      (Outcome.ret errType, Option.none) ∧
    call_llm "m" (Messages.str " ") (fun _ => HttpOutcome.timeout "") =
      (Outcome.ret errEmpty, Option.none) ∧
    call_llm "m" (Messages.str (String.mk (List.replicate 10001 'x')))
        (fun _ => HttpOutcome.timeout "") = (Outcome.ret errTooLong, Option.none) :=
  ⟨(C3_input_errors "m" Messages.other [] [] (fun _ => HttpOutcome.timeout "")).1,
   (C3_input_errors "m" (Messages.str " ") [Elem.str " "] [""]
      (fun _ => HttpOutcome.timeout "")).2.1 rfl rfl rfl,
   (C3_input_errors "m" (Messages.str (String.mk (List.replicate 10001 'x')))
      [Elem.str (String.mk (List.replicate 10001 'x'))]
      [String.mk (List.replicate 10001 'x')]
      (fun _ => HttpOutcome.timeout "")).2.2.1 rfl
      (by rw [stripElems_singleton, pyStrip_replicate 10001 'x' rfl])
      (by rw [intercalate_singleton, pyStrip_replicate 10001 'x' rfl]
          exact mk_replicate_ne_empty 10001 'x' (by decide))
      (by rw [intercalate_singleton, mk_replicate_length]
          decide)⟩

/-- C2: on any valid input whose joined prompt is non-empty after
trimming and at most 10000 characters, a response with status below 400
and a JSON dict holding the key `"response"` makes `call_llm` return
exactly that field's value, coerced by `pyStr` — which on a string value
is that very string. -/
theorem C2_success_extraction (model : String) (msgs : Messages) (xs : List Elem)
    (parts : List String) (resp : Response) (fs : List (String × Json)) (val : Json)
    (h1 : msgs.elems = some xs) (h2 : stripElems xs = Except.ok parts)
    (h3 : pyStrip (String.intercalate "\n" parts) ≠ "")
    (h4 : (String.intercalate "\n" parts).length ≤ 10000)
    (h5 : resp.status < 400) (h6 : resp.json = some (Json.obj fs))
    (h7 : fs.lookup "response" = some val) :
    (call_llm model msgs (fun _ => HttpOutcome.ok resp)).1 = Outcome.ret (pyStr val) ∧
    (∀ s, val = Json.str s → pyStr val = s) := by
  constructor
  · rw [call_llm, buildPrompt_ok msgs xs parts h1 h2 h3 h4]
    simp only [dispatch, Nat.not_le.mpr h5, if_false, h6, parseBody, h7]
  · rintro s rfl
    rfl

/-- C2, witness: the canned success body of the unit tests. -/
theorem C2_witness :
    (call_llm "Qwen/Qwen3-VL-30B-A3B-Instruct"
        (Messages.list [Elem.str "Переведи", Elem.str "Солнце светит."])
        (fun _ => HttpOutcome.ok ⟨200, some "",
          some (Json.obj [("response", Json.str "Mocked Translation: The sun is shining.")]),
          ""⟩)).1 =
      Outcome.ret (pyStr (Json.str "Mocked Translation: The sun is shining.")) :=
  (C2_success_extraction "Qwen/Qwen3-VL-30B-A3B-Instruct"
    (Messages.list [Elem.str "Переведи", Elem.str "Солнце светит."])
    [Elem.str "Переведи", Elem.str "Солнце светит."]
    ["Переведи", "Солнце светит."]
    ⟨200, some "", some (Json.obj [("response",
      Json.str "Mocked Translation: The sun is shining.")]), ""⟩
    [("response", Json.str "Mocked Translation: The sun is shining.")]
    (Json.str "Mocked Translation: The sun is shining.")
    rfl rfl (by decide) (by decide) (by decide) rfl rfl).1

/-- C4: when the HTTP call raises a transport exception, the three
`except` clauses produce one fixed timeout string, one connection string
and one generic fallback, all pairwise distinct whatever the exception
texts are. -/
theorem C4_transport_errors (model : String) (msgs : Messages) (xs : List Elem)
    (parts : List String) (e1 e2 e3 : String)
    (h1 : msgs.elems = some xs) (h2 : stripElems xs = Except.ok parts)
    (h3 : pyStrip (String.intercalate "\n" parts) ≠ "")
    (h4 : (String.intercalate "\n" parts).length ≤ 10000) :
    (call_llm model msgs (fun _ => HttpOutcome.timeout e1)).1 = Outcome.ret errTimeout ∧
    (call_llm model msgs (fun _ => HttpOutcome.connError e2)).1 =
      Outcome.ret (errConn e2) ∧
    (call_llm model msgs (fun _ => HttpOutcome.reqError e3)).1 =
      Outcome.ret (errReq e3) ∧
    errTimeout ≠ errConn e2 ∧ errTimeout ≠ errReq e3 ∧ errConn e2 ≠ errReq e3 := by
  refine ⟨?_, ?_, ?_, ?_, ?_, ?_⟩
  · rw [call_llm, buildPrompt_ok msgs xs parts h1 h2 h3 h4]; rfl
  · rw [call_llm, buildPrompt_ok msgs xs parts h1 h2 h3 h4]; rfl
  · rw [call_llm, buildPrompt_ok msgs xs parts h1 h2 h3 h4]; rfl
  · exact ne_append_of_take_ne errTimeout "Ошибка соединения с LLM: " 8
      (by decide) (by decide) e2
  · exact ne_append_of_take_ne errTimeout "Ошибка запроса к LLM: " 8
      (by decide) (by decide) e3
  · exact append_ne_append_of_take_ne "Ошибка соединения с LLM: "
      "Ошибка запроса к LLM: " 8 (by decide) (by decide) (by decide) e2 e3

/-- C4, witness: the three transport failures on a concrete valid
input. -/
theorem C4_witness :
    (call_llm "any-model" (Messages.list [Elem.str "hi"])
        (fun _ => HttpOutcome.timeout "")).1 = Outcome.ret errTimeout ∧
    (call_llm "any-model" (Messages.list [Elem.str "hi"])
        (fun _ => HttpOutcome.connError "conn failed")).1 =
      Outcome.ret (errConn "conn failed") ∧
    (call_llm "any-model" (Messages.list [Elem.str "hi"])
        (fun _ => HttpOutcome.reqError "boom")).1 = Outcome.ret (errReq "boom") ∧
    errTimeout ≠ errConn "conn failed" ∧ errTimeout ≠ errReq "boom" ∧
    errConn "conn failed" ≠ errReq "boom" :=
  C4_transport_errors "any-model" (Messages.list [Elem.str "hi"]) [Elem.str "hi"]
    ["hi"] "" "conn failed" "boom" rfl rfl (by decide) (by decide)

set_option maxRecDepth 8192 in
/-- C5: a 401 response gets the fixed diagnostic naming
`MENTORPIECE_API_KEY`; any other status of at least 400 gets a diagnostic
embedding the status code and the body text, and the parsed JSON plays no
part in either answer. -/
theorem C5_http_status_errors (model : String) (msgs : Messages) (xs : List Elem)
    (parts : List String) (resp : Response) (body : String) (j : Option Json)
    (h1 : msgs.elems = some xs) (h2 : stripElems xs = Except.ok parts)
    (h3 : pyStrip (String.intercalate "\n" parts) ≠ "")
    (h4 : (String.intercalate "\n" parts).length ≤ 10000) :
    (resp.status = 401 →
      (call_llm model msgs (fun _ => HttpOutcome.ok resp)).1 = Outcome.ret err401) ∧
    List.IsInfix "MENTORPIECE_API_KEY".data err401.data ∧
    (400 ≤ resp.status → resp.status ≠ 401 → resp.text = some body →
      (call_llm model msgs (fun _ => HttpOutcome.ok resp)).1 =
        Outcome.ret (errHTTP resp.status body)) ∧
    (400 ≤ resp.status →
      (call_llm model msgs (fun _ =>
          HttpOutcome.ok ⟨resp.status, resp.text, j, resp.httpErrorText⟩)).1 =
        (call_llm model msgs (fun _ => HttpOutcome.ok resp)).1) := by
  refine ⟨?_, by decide, ?_, ?_⟩
  · intro h401
    rw [call_llm, buildPrompt_ok msgs xs parts h1 h2 h3 h4]
    simp only [dispatch, h401]
    rfl
  · intro hge hne htext
    rw [call_llm, buildPrompt_ok msgs xs parts h1 h2 h3 h4]
    simp only [dispatch, if_pos hge, if_neg hne, htext, Option.getD_some]
  · intro hge
    rw [call_llm, call_llm, buildPrompt_ok msgs xs parts h1 h2 h3 h4]
    simp only [dispatch, if_pos hge]

/-- C5, witness: a 401 and a 500 with body on a concrete valid input. -/
theorem C5_witness :
    (call_llm "m" (Messages.str "hi")
        (fun _ => HttpOutcome.ok ⟨401, some "x", Option.none, ""⟩)).1 =
      Outcome.ret err401 ∧
    (call_llm "m" (Messages.str "hi")
        (fun _ => HttpOutcome.ok ⟨500, some "server blew up", Option.none, ""⟩)).1 =
      Outcome.ret (errHTTP 500 "server blew up") :=
  ⟨(C5_http_status_errors "m" (Messages.str "hi") [Elem.str "hi"] ["hi"]
      ⟨401, some "x", Option.none, ""⟩ "x" Option.none
      rfl rfl (by decide) (by decide)).1 rfl,
   (C5_http_status_errors "m" (Messages.str "hi") [Elem.str "hi"] ["hi"]
      ⟨500, some "server blew up", Option.none, ""⟩ "server blew up" Option.none
      rfl rfl (by decide) (by decide)).2.2.1 (by decide) (by decide) rfl⟩

/-- The missing-field diagnostic is its fixed prefix followed by the
`str()` of the parsed body. -/
theorem errNoField_eq (data : Json) :
    errNoField data = ("Ошибка: в ответе отсутствует поле " ++ String.singleton squote
      ++ "response" ++ String.singleton squote ++ " — получено: ") ++ pyStr data := rfl

set_option maxRecDepth 8192 in
/-- C6: a sub-400 response whose body fails to parse yields the fixed
invalid-JSON string; a parsed body that is not a dict with a `"response"`
key yields a diagnostic that embeds the whole parsed structure and says
the field is absent. -/
theorem C6_body_shape_errors (model : String) (msgs : Messages) (xs : List Elem)
    (parts : List String) (resp : Response) (data : Json)
    (h1 : msgs.elems = some xs) (h2 : stripElems xs = Except.ok parts)
    (h3 : pyStrip (String.intercalate "\n" parts) ≠ "")
    (h4 : (String.intercalate "\n" parts).length ≤ 10000)
    (h5 : resp.status < 400) :
    (resp.json = Option.none →
      (call_llm model msgs (fun _ => HttpOutcome.ok resp)).1 = Outcome.ret errBadJson) ∧
    (resp.json = some data → hasResponseField data = false →
      (call_llm model msgs (fun _ => HttpOutcome.ok resp)).1 =
        Outcome.ret (errNoField data)) ∧
    List.IsInfix (pyStr data).data (errNoField data).data ∧
    List.IsInfix "отсутствует поле".data (errNoField data).data := by
  refine ⟨?_, ?_, ?_, ?_⟩
  · intro hj
    rw [call_llm, buildPrompt_ok msgs xs parts h1 h2 h3 h4]
    simp only [dispatch, Nat.not_le.mpr h5, if_false, hj, parseBody]
  · intro hj hf
    rw [call_llm, buildPrompt_ok msgs xs parts h1 h2 h3 h4]
    simp only [dispatch, Nat.not_le.mpr h5, if_false, hj, parseBody]
    cases data with
    | obj fs =>
      cases hl : fs.lookup "response" with
      | none => simp only [hl]
      | some v => simp [hasResponseField, hl] at hf
    | str s => rfl
    | int n => rfl
    | bool b => rfl
    | null => rfl
    | arr ys => rfl
  · exact ⟨("Ошибка: в ответе отсутствует поле " ++ String.singleton squote
      ++ "response" ++ String.singleton squote ++ " — получено: ").data, [],
      by simp [errNoField_eq, String.data_append, List.append_assoc]⟩
  · have hpre : "отсутствует поле".data <:+: "Ошибка: в ответе отсутствует поле ".data :=
      by decide
    have hdata : (errNoField data).data = "Ошибка: в ответе отсутствует поле ".data
        ++ ((String.singleton squote).data ++ ("response".data
        ++ ((String.singleton squote).data
        ++ (" — получено: ".data ++ (pyStr data).data)))) := by
      simp [errNoField, String.data_append, List.append_assoc]
    refine List.IsInfix.trans hpre (List.IsPrefix.isInfix ?_)
    rw [hdata]
    exact List.prefix_append _ _

/-- C6, witness: the malformed body of the unit tests, whose diagnostic
embeds the whole parsed dict. -/
theorem C6_witness :
    (call_llm "m" (Messages.list [Elem.str "hi"])
        (fun _ => HttpOutcome.ok ⟨200, some "no json", Option.none, ""⟩)).1 =
      Outcome.ret errBadJson ∧
    (call_llm "m" (Messages.list [Elem.str "hi"])
        (fun _ => HttpOutcome.ok ⟨200, some "",
          some (Json.obj [("unexpected", Json.str "value")]), ""⟩)).1 =
      Outcome.ret (errNoField (Json.obj [("unexpected", Json.str "value")])) ∧
    List.IsInfix (pyStr (Json.obj [("unexpected", Json.str "value")])).data
      (errNoField (Json.obj [("unexpected", Json.str "value")])).data :=
  ⟨(C6_body_shape_errors "m" (Messages.list [Elem.str "hi"]) [Elem.str "hi"] ["hi"]
      ⟨200, some "no json", Option.none, ""⟩ Json.null
      rfl rfl (by decide) (by decide) (by decide)).1 rfl,
   (C6_body_shape_errors "m" (Messages.list [Elem.str "hi"]) [Elem.str "hi"] ["hi"]
      ⟨200, some "", some (Json.obj [("unexpected", Json.str "value")]), ""⟩
      (Json.obj [("unexpected", Json.str "value")])
      rfl rfl (by decide) (by decide) (by decide)).2.1 rfl rfl,
   (C6_body_shape_errors "m" (Messages.list [Elem.str "hi"]) [Elem.str "hi"] ["hi"]
      ⟨200, some "", some (Json.obj [("unexpected", Json.str "value")]), ""⟩
      (Json.obj [("unexpected", Json.str "value")])
      rfl rfl (by decide) (by decide) (by decide)).2.2.1⟩

/-- C7: a single string behaves exactly as its one-element list and a
tuple as the same list; the source's generator realizes the spec's
normalization — trim each element, skip None, join with newline — and
when the joined prompt passes the checks the dispatched payload is
exactly the model name paired with that prompt. -/
theorem C7_normalization (model : String) (s : String) (xs : List Elem)
    (http : Payload → HttpOutcome) (h : xs.contains Elem.nonStr = false) :
    call_llm model (Messages.str s) http =
      call_llm model (Messages.list [Elem.str s]) http ∧
    call_llm model (Messages.tuple xs) http = call_llm model (Messages.list xs) http ∧
    stripElems xs = Except.ok (specNormalize xs) ∧
    (pyStrip (String.intercalate "\n" (specNormalize xs)) ≠ "" →
      (String.intercalate "\n" (specNormalize xs)).length ≤ 10000 →
      (call_llm model (Messages.list xs) http).2 =
        some ⟨model, String.intercalate "\n" (specNormalize xs)⟩) := by
  refine ⟨rfl, rfl, stripElems_wellTyped xs h, ?_⟩
  intro h3 h4
  rw [call_llm, buildPrompt_ok (Messages.list xs) xs (specNormalize xs) rfl
    (stripElems_wellTyped xs h) h3 h4]

/-- C7, witness: a list with padding, a None and a second fragment is
trimmed, filtered and joined into the dispatched payload. -/
theorem C7_witness :
    call_llm "m" (Messages.str "hi") (fun _ => HttpOutcome.timeout "") =
      call_llm "m" (Messages.list [Elem.str "hi"]) (fun _ => HttpOutcome.timeout "") ∧
    stripElems [Elem.str "  a ", Elem.none, Elem.str "b"] =
      Except.ok (specNormalize [Elem.str "  a ", Elem.none, Elem.str "b"]) ∧
    (call_llm "m" (Messages.list [Elem.str "  a ", Elem.none, Elem.str "b"])
        (fun _ => HttpOutcome.timeout "")).2 =
      some ⟨"m", String.intercalate "\n"
        (specNormalize [Elem.str "  a ", Elem.none, Elem.str "b"])⟩ :=
  ⟨(C7_normalization "m" "hi" [Elem.str "hi"]
      (fun _ => HttpOutcome.timeout "") (by decide)).1,
   (C7_normalization "m" "hi" [Elem.str "  a ", Elem.none, Elem.str "b"]
      (fun _ => HttpOutcome.timeout "") (by decide)).2.2.1,
   (C7_normalization "m" "hi" [Elem.str "  a ", Elem.none, Elem.str "b"]
      (fun _ => HttpOutcome.timeout "") (by decide)).2.2.2 (by decide) (by decide)⟩

set_option maxRecDepth 8192 in
/-- C8: the code, not the claim, is at fault.  As the module stands,
`call_openai` raises `NameError` on every call — whatever the model, the
messages, the value the `OPENAI_API_KEY` environment variable holds, and
the HTTP behaviour — returning no string and dispatching nothing, because
the global it reads on line 183 is never bound.  Under the missing
binding (`call_openai_documented`) the claim's property does hold: a
blank or absent credential returns the fixed diagnostic naming
`OPENAI_API_KEY` with no HTTP call, and any dispatched request carries
the cleaned-up, necessarily non-empty credential as a bearer
`Authorization` header. -/
theorem C8_openai_unbound_credential (model : String) (msgs : List String)
    (key : Option String) (http : OpenAIRequest → HttpOutcome) :
    call_openai model msgs key http = (Outcome.raise nameError, Option.none) ∧
    ((call_openai model msgs key http).1).isRet = false ∧
    (pyStrip (key.getD "") = "" →
      call_openai_documented model msgs key http =
        (Outcome.ret errNoKey, Option.none)) ∧
    List.IsInfix "OPENAI_API_KEY".data errNoKey.data ∧
    (∀ req, (call_openai_documented model msgs key http).2 = some req →
      req.authorization = "Bearer " ++ stripBearer (pyStrip (key.getD "")) ∧
      stripBearer (pyStrip (key.getD "")) ≠ "") := by
  refine ⟨rfl, rfl, ?_, by decide, ?_⟩
  · intro h
    simp only [call_openai_documented, h]
    rfl
  · intro req hreq
    by_cases hk : stripBearer (pyStrip (key.getD "")) = ""
    · simp only [call_openai_documented, if_pos hk] at hreq
      cases hreq
    · simp only [call_openai_documented, if_neg hk] at hreq
      cases hreq
      exact ⟨rfl, hk⟩

/-- C8, witness: the call raises `NameError` both with no environment
value and with a configured key; the documented variant returns the
diagnostic for the missing key and dispatches the cleaned bearer header
for the configured one. -/
theorem C8_witness :
    call_openai "gpt-4o" ["hi"] Option.none (fun _ => HttpOutcome.timeout "") =
      (Outcome.raise nameError, Option.none) ∧
    call_openai "gpt-4o" ["hi"] (some "sk-test") (fun _ => HttpOutcome.timeout "") =
      (Outcome.raise nameError, Option.none) ∧
    call_openai_documented "gpt-4o" ["hi"] Option.none
        (fun _ => HttpOutcome.timeout "") = (Outcome.ret errNoKey, Option.none) ∧
    (OpenAIRequest.mk "https://api.openai.com/v1/chat/completions" "gpt-4o" "hi" 1024
        "Bearer sk-test").authorization =
      "Bearer " ++ stripBearer (pyStrip ((some " Bearer sk-test ").getD "")) ∧
    stripBearer (pyStrip ((some " Bearer sk-test ").getD "")) ≠ "" :=
  ⟨(C8_openai_unbound_credential "gpt-4o" ["hi"] Option.none
      (fun _ => HttpOutcome.timeout "")).1,
   (C8_openai_unbound_credential "gpt-4o" ["hi"] (some "sk-test")
      (fun _ => HttpOutcome.timeout "")).1,
   (C8_openai_unbound_credential "gpt-4o" ["hi"] Option.none
      (fun _ => HttpOutcome.timeout "")).2.2.1 rfl,
   (C8_openai_unbound_credential "gpt-4o" ["hi"] (some " Bearer sk-test ")
      (fun _ => HttpOutcome.timeout "")).2.2.2.2
      ⟨"https://api.openai.com/v1/chat/completions", "gpt-4o", "hi", 1024,
        "Bearer sk-test"⟩ rfl⟩

/-- C9: the 10000-character ceiling is applied to the newline-joined
prompt — so the separator characters count, as the two-fragment length
identity shows — and the comparison is strict: at most 10000 characters
reaches dispatch, 10001 or more returns the too-long error. -/
theorem C9_strict_length_limit (model : String) (msgs : Messages) (xs : List Elem)
    (parts : List String) (a b : String) (http : Payload → HttpOutcome)
    (h1 : msgs.elems = some xs) (h2 : stripElems xs = Except.ok parts)
    (h3 : pyStrip (String.intercalate "\n" parts) ≠ "") :
    ((String.intercalate "\n" parts).length ≤ 10000 →
      call_llm model msgs http =
        (dispatch (http ⟨model, String.intercalate "\n" parts⟩),
          some ⟨model, String.intercalate "\n" parts⟩)) ∧
    (10001 ≤ (String.intercalate "\n" parts).length →
      call_llm model msgs http = (Outcome.ret errTooLong, Option.none)) ∧
    (String.intercalate "\n" [a, b]).length = a.length + b.length + 1 := by
  refine ⟨?_, ?_, ?_⟩
  · intro h4
    rw [call_llm, buildPrompt_ok msgs xs parts h1 h2 h3 h4]
  · intro h4
    have hne : ¬(String.intercalate "\n" parts = ""
        ∨ pyStrip (String.intercalate "\n" parts) = "") := by
      rintro (h | h)
      · exact h3 (by rw [h]; rfl)
      · exact h3 h
    simp only [call_llm, buildPrompt, h1, h2]
    rw [if_neg hne, if_pos (by omega)]
  · have hab : String.intercalate "\n" [a, b] = a ++ "\n" ++ b := rfl
    have h1n : ("\n" : String).length = 1 := rfl
    rw [hab, String.length_append, String.length_append, h1n]
    omega

/-- C9, witness: a 10000-character prompt is dispatched, a 10001-character
prompt is rejected, and two fragments of lengths 5 and 4 join into a
10-character prompt. -/
theorem C9_witness :
    call_llm "m" (Messages.str (String.mk (List.replicate 10000 'x')))
        (fun _ => HttpOutcome.timeout "") =
      (dispatch ((fun _ => HttpOutcome.timeout "")
          (Payload.mk "m" (String.intercalate "\n" [String.mk (List.replicate 10000 'x')]))),
        some ⟨"m", String.intercalate "\n" [String.mk (List.replicate 10000 'x')]⟩) ∧
    call_llm "m" (Messages.str (String.mk (List.replicate 10001 'x')))
        (fun _ => HttpOutcome.timeout "") = (Outcome.ret errTooLong, Option.none) ∧
    (String.intercalate "\n" ["12345", "1234"]).length = 10 :=
  ⟨(C9_strict_length_limit "m" (Messages.str (String.mk (List.replicate 10000 'x')))
      [Elem.str (String.mk (List.replicate 10000 'x'))]
      [String.mk (List.replicate 10000 'x')] "" ""
      (fun _ => HttpOutcome.timeout "") rfl
      (by rw [stripElems_singleton, pyStrip_replicate 10000 'x' rfl])
      (by rw [intercalate_singleton, pyStrip_replicate 10000 'x' rfl]
          exact mk_replicate_ne_empty 10000 'x' (by decide))).1
      (by rw [intercalate_singleton, mk_replicate_length]),
   (C9_strict_length_limit "m" (Messages.str (String.mk (List.replicate 10001 'x')))
      [Elem.str (String.mk (List.replicate 10001 'x'))]
      [String.mk (List.replicate 10001 'x')] "" ""
      (fun _ => HttpOutcome.timeout "") rfl
      (by rw [stripElems_singleton, pyStrip_replicate 10001 'x' rfl])
      (by rw [intercalate_singleton, pyStrip_replicate 10001 'x' rfl]
          exact mk_replicate_ne_empty 10001 'x' (by decide))).2.1
      (by rw [intercalate_singleton, mk_replicate_length]),
   (C9_strict_length_limit "m" (Messages.str "hi") [Elem.str "hi"] ["hi"]
      "12345" "1234" (fun _ => HttpOutcome.timeout "") rfl rfl (by decide)).2.2⟩

/-- C10: `call_llm` never looks at `model_name` before dispatch: with the
same `messages`, either both runs exit before the HTTP call with the very
same result, or both reach dispatch with payloads sharing the same prompt
and differing only in the model name. -/
theorem C10_model_name_not_validated (m1 m2 : String) (msgs : Messages)
    (http : Payload → HttpOutcome) :
    ((call_llm m1 msgs http).2 = Option.none →
      call_llm m1 msgs http = call_llm m2 msgs http) ∧
    (∀ p, (call_llm m1 msgs http).2 = some p →
      p.model_name = m1 ∧ (call_llm m2 msgs http).2 = some ⟨m2, p.prompt⟩) := by
  cases hbp : buildPrompt msgs with
  | error o =>
    refine ⟨fun _ => ?_, fun p hp => ?_⟩
    · rw [call_llm, call_llm, hbp]
    · rw [call_llm, hbp] at hp
      cases hp
  | ok prompt =>
    refine ⟨fun hn => ?_, fun p hp => ?_⟩
    · rw [call_llm, hbp] at hn
      cases hn
    · rw [call_llm, hbp] at hp
      cases hp
      exact ⟨rfl, by rw [call_llm, hbp]⟩

/-- C10, witness: two different model names on the same valid input both
reach dispatch with the same prompt. -/
theorem C10_witness :
    (Payload.mk "a" "hi").model_name = "a" ∧
    (call_llm "b" (Messages.str "hi") (fun _ => HttpOutcome.timeout "")).2 =
      some ⟨"b", "hi"⟩ :=
  (C10_model_name_not_validated "a" "b" (Messages.str "hi")
    (fun _ => HttpOutcome.timeout "")).2 ⟨"a", "hi"⟩ rfl

end Bridge
